import Mathlib

/-!
Shallow embedding of spiro/hostapd.py.

The module shells out to the OS service manager and package manager and
writes three configuration files.  We model the outside world as an
oracle `Env`: `exec` gives the exit code of each shell command, `out`
gives its captured combined stdout and stderr, and `uuid` is the
canonical string of the time-based UUID generated during the run.
Each Python function becomes a Lean function returning its value
together with the trace of observable events (commands run, files
written, lines logged) it performs, in order.
-/

namespace Spiro

/-- Oracle for the outside world: exit code and captured output of each
shell command, and the canonical string of the generated UUID. -/
structure Env where
  exec : List String → Int
  out : List String → String
  uuid : String

/-- Observable events of a run: a subprocess invocation together with its
exit code, a full overwrite of a file with given content, an info-level
log line, a debug-level log line. -/
inductive Event where
  | runCmd (args : List String) (code : Int)
  | writeFile (path : String) (content : String)
  | logLine (msg : String)
  | debugLine (msg : String)
  deriving DecidableEq

/-- The command of an event, when it is a subprocess invocation. -/
def cmdOf? : Event → Option (List String)
  | Event.runCmd a _ => some a
  | _ => none

/-- The path and content of an event, when it is a file write. -/
def writeOf? : Event → Option (String × String)
  | Event.writeFile p c => some (p, c)
  | _ => none

/-- Commands issued in a trace, in order. -/
def cmdsOf (t : List Event) : List (List String) :=
  t.filterMap cmdOf?

/-- File writes issued in a trace, in order. -/
def writesOf (t : List Event) : List (String × String) :=
  t.filterMap writeOf?

/-- Effect of one event on the file system (a map from path to content). -/
def applyEvent (files : String → Option String) : Event → String → Option String
  | Event.writeFile p c => fun q => if q = p then some c else files q
  | _ => files

/-- Effect of a trace on the file system. -/
def applyEvents (files : String → Option String) : List Event → String → Option String
  | [] => files
  | e :: es => applyEvents (applyEvent files e) es

/-- Python slicing s[a:b] on strings (by code point, clamped). -/
def pySlice (s : String) (a b : Nat) : String :=
  String.mk ((s.data.drop a).take (b - a))

/-- init: systemctl daemon-reload, exit code ignored. -/
def init (env : Env) : List Event :=
  [Event.runCmd ["systemctl", "daemon-reload"] (env.exec ["systemctl", "daemon-reload"])]

/-- Loop body of install_reqs over the list of required packages. -/
def installLoop (env : Env) : List String → (Bool × Option String) × List Event
  | [] => ((true, none), [])
  | r :: rest =>
    let qc := env.exec ["dpkg", "-l", r]
    if qc ≠ 0 then
      let ic := env.exec ["apt", "install", "-y", r]
      if ic ≠ 0 then
        ((false, some (env.out ["apt", "install", "-y", r])),
          [Event.runCmd ["dpkg", "-l", r] qc, Event.runCmd ["apt", "install", "-y", r] ic])
      else
        let sc := env.exec ["systemctl", "stop", r]
        let k := installLoop env rest
        (k.1, Event.runCmd ["dpkg", "-l", r] qc ::
              Event.runCmd ["apt", "install", "-y", r] ic ::
              Event.runCmd ["systemctl", "stop", r] sc :: k.2)
    else
      let k := installLoop env rest
      (k.1, Event.runCmd ["dpkg", "-l", r] qc :: k.2)

/-- install_reqs: for each of dnsmasq and hostapd, query presence via dpkg,
install via apt when absent, abort with the captured output on install
failure, stop the service after a fresh install. -/
def install_reqs (env : Env) : (Bool × Option String) × List Event :=
  installLoop env ["dnsmasq", "hostapd"]

/-- Dedented hostapd.conf template, parameterized by ssid and passphrase. -/
def hostapdConf (ssid pwd : String) : String :=
  "# auto-generated by spiro software\ninterface=wlan0\ndriver=nl80211\nssid=" ++ ssid ++
  "\nhw_mode=g\nchannel=7\nwmm_enabled=0\nmacaddr_acl=0\nauth_algs=1\nignore_broadcast_ssid=0\nwpa=2\nwpa_passphrase=" ++ pwd ++
  "\nwpa_key_mgmt=WPA-PSK\nwpa_pairwise=TKIP\nrsn_pairwise=CCMP\n"

/-- config_hostapd: derive ssid and passphrase from the generated UUID
string (u[30:36] and u[0:8]) and overwrite /etc/hostapd/hostapd.conf. -/
def config_hostapd (env : Env) : (String × String) × List Event :=
  let u := env.uuid
  let ssid := "spiro-" ++ pySlice u 30 36
  let pwd := pySlice u 0 8
  ((ssid, pwd), [Event.writeFile "/etc/hostapd/hostapd.conf" (hostapdConf ssid pwd)])

/-- Dedented dnsmasq.conf content (fixed). -/
def dnsmasqConf : String :=
  "# auto-generated by spiro software\ninterface=wlan0\ndhcp-range=192.168.138.10,192.168.138.254,12h\naddress=/#/192.168.138.1\nno-resolv\nno-poll\nno-hosts\ndomain=spiro.local\n"

/-- config_dnsmasq: overwrite /etc/dnsmasq.conf with the fixed content. -/
def config_dnsmasq (env : Env) : List Event :=
  [Event.writeFile "/etc/dnsmasq.conf" dnsmasqConf]

/-- Dedented baseline block of dhcpcd.conf. -/
def dhcpcdBase : String :=
  "# auto-generated by spiro software\nhostname\nclientid\npersistent\noption rapid_commit\noption domain_name_servers, domain_name, domain_search, host_name\noption classless_static_routes\noption interface_mtu\noption ntp_servers\nrequire dhcp_server_identifier\nslaac private\n"

/-- Dedented static-IP block of dhcpcd.conf, appended only when enabled. -/
def dhcpcdStatic : String :=
  "interface wlan0\nstatic ip_address=192.168.138.1/24\nnohook wpa_supplicant\n"

/-- Final content of /etc/dhcpcd.conf for a given enable flag. -/
def dhcpcdConf (enable : Bool) : String :=
  if enable = true then dhcpcdBase ++ dhcpcdStatic else dhcpcdBase

/-- config_dhcpcd: overwrite /etc/dhcpcd.conf with the baseline block and,
when enable is true, the appended static-IP block. -/
def config_dhcpcd (env : Env) (enable : Bool) : List Event :=
  [Event.writeFile "/etc/dhcpcd.conf" (dhcpcdConf enable)]

/-- Loop body of restart_services: restart each service, log a debug line,
collect the exit codes. -/
def restartLoop (env : Env) : List String → List Int × List Event
  | [] => ([], [])
  | s :: rest =>
    let c := env.exec ["systemctl", "restart", s]
    let k := restartLoop env rest
    (c :: k.1,
      Event.runCmd ["systemctl", "restart", s] c ::
      Event.debugLine ("Restarted service " ++ s ++ " with status code " ++ toString c ++ ".") ::
      k.2)

/-- restart_services: restart dhcpcd, dnsmasq, hostapd in order; return
whether all collected exit codes are zero. -/
def restart_services (env : Env) : Bool × List Event :=
  let k := restartLoop env ["dhcpcd", "dnsmasq", "hostapd"]
  (k.1.all (fun c => c == 0), k.2)

/-- Per-service pair of systemctl invocations used by enable_services and
disable_services; exit codes are captured but never inspected. -/
def svcPairEvents (env : Env) (verb1 verb2 : String) : List String → List Event
  | [] => []
  | s :: rest =>
    Event.runCmd ["systemctl", verb1, s] (env.exec ["systemctl", verb1, s]) ::
    Event.runCmd ["systemctl", verb2, s] (env.exec ["systemctl", verb2, s]) ::
    svcPairEvents env verb1 verb2 rest

/-- enable_services: unmask then enable dnsmasq and hostapd. -/
def enable_services (env : Env) : List Event :=
  svcPairEvents env "unmask" "enable" ["dnsmasq", "hostapd"]

/-- disable_services: stop then disable dnsmasq and hostapd. -/
def disable_services (env : Env) : List Event :=
  svcPairEvents env "stop" "disable" ["dnsmasq", "hostapd"]

/-- start_ap: the full start sequence; returns the process exit code and
the trace. The result of install_reqs is discarded. -/
def start_ap (env : Env) : Nat × List Event :=
  let inst := install_reqs env
  let cred := config_hostapd env
  let ssid := cred.1.1
  let pwd := cred.1.2
  let r := restart_services env
  let evs :=
    Event.logLine "Setting up dependencies..." :: init env ++ inst.2 ++
    Event.logLine "Configuring system..." ::
      (config_dhcpcd env true ++ config_dnsmasq env ++ cred.2) ++
    Event.logLine "Starting services..." :: enable_services env ++ r.2
  if !r.1 then
    (1, evs ++ [Event.logLine "Failed to restart services.",
                Event.logLine "Setting up access point failed."])
  else
    (0, evs ++ [Event.logLine "Access point configured and enabled. Below are the details for connecting to it:",
                Event.logLine ("\nSSID:     " ++ ssid),
                Event.logLine ("Password: " ++ pwd),
                Event.logLine "\nConnect to the web interface using the address http://spiro.local"])

/-- stop_ap: log, disable services, log. No value is returned. -/
def stop_ap (env : Env) : List Event :=
  Event.logLine "Disabling services..." :: disable_services env ++
  [Event.logLine "Access point disabled."]

/-- Lowercase hexadecimal digit, as produced by the Python str of a UUID. -/
def isHexChar (c : Char) : Bool :=
  (48 ≤ c.toNat && c.toNat ≤ 57) || (97 ≤ c.toNat && c.toNat ≤ 102)

/-- The hyphen character, code point 45. -/
def hyphen : Char := Char.ofNat 45

/-- Canonical form of a UUID string: five lowercase-hex groups of lengths
8, 4, 4, 4, 12 separated by hyphens (36 characters in total). -/
def IsCanonicalUuid (u : String) : Prop :=
  ∃ a b c d e : List Char,
    a.length = 8 ∧ b.length = 4 ∧ c.length = 4 ∧ d.length = 4 ∧ e.length = 12 ∧
    a.all isHexChar = true ∧ b.all isHexChar = true ∧ c.all isHexChar = true ∧
    d.all isHexChar = true ∧ e.all isHexChar = true ∧
    u.data = a ++ [hyphen] ++ b ++ [hyphen] ++ c ++ [hyphen] ++ d ++ [hyphen] ++ e

/-- Proper initial segment: t extends s by a nonempty remainder. -/
def isStrictPre (s t : String) : Prop :=
  ∃ r : String, r ≠ "" ∧ t = s ++ r

theorem writesOf_nil : writesOf [] = [] := rfl

theorem writesOf_cons_run (a : List String) (c : Int) (es : List Event) :
    writesOf (Event.runCmd a c :: es) = writesOf es := rfl

theorem writesOf_cons_log (m : String) (es : List Event) :
    writesOf (Event.logLine m :: es) = writesOf es := rfl

theorem writesOf_cons_debug (m : String) (es : List Event) :
    writesOf (Event.debugLine m :: es) = writesOf es := rfl

theorem writesOf_cons_write (p c : String) (es : List Event) :
    writesOf (Event.writeFile p c :: es) = (p, c) :: writesOf es := rfl

theorem writesOf_append (xs ys : List Event) :
    writesOf (xs ++ ys) = writesOf xs ++ writesOf ys := by
  simp [writesOf]

theorem writesOf_installLoop (env : Env) (l : List String) :
    writesOf (installLoop env l).2 = [] := by
  induction l with
  | nil => rfl
  | cons r rest ih =>
    by_cases h1 : env.exec ["dpkg", "-l", r] = 0
    · simp [installLoop, h1, writesOf_cons_run, ih]
    · by_cases h2 : env.exec ["apt", "install", "-y", r] = 0
      · simp [installLoop, h1, h2, writesOf_cons_run, ih]
      · simp [installLoop, h1, h2, writesOf_cons_run, writesOf_nil]

theorem writesOf_restartLoop (env : Env) (l : List String) :
    writesOf (restartLoop env l).2 = [] := by
  induction l with
  | nil => rfl
  | cons s rest ih =>
    simp [restartLoop, writesOf_cons_run, writesOf_cons_debug, ih]

theorem writesOf_svcPairEvents (env : Env) (v1 v2 : String) (l : List String) :
    writesOf (svcPairEvents env v1 v2 l) = [] := by
  induction l with
  | nil => rfl
  | cons s rest ih =>
    simp [svcPairEvents, writesOf_cons_run, ih]

theorem writesOf_restart_services (env : Env) :
    writesOf (restart_services env).2 = [] := by
  show writesOf (restartLoop env ["dhcpcd", "dnsmasq", "hostapd"]).2 = []
  exact writesOf_restartLoop env _

theorem writesOf_start_ap (env : Env) :
    writesOf (start_ap env).2 =
      [("/etc/dhcpcd.conf", dhcpcdConf true),
       ("/etc/dnsmasq.conf", dnsmasqConf),
       ("/etc/hostapd/hostapd.conf",
         hostapdConf (config_hostapd env).1.1 (config_hostapd env).1.2)] := by
  by_cases h : (restart_services env).1 = true <;>
    simp [start_ap, h, init, install_reqs, config_dhcpcd, config_dnsmasq,
      config_hostapd, enable_services,
      writesOf_append, writesOf_cons_run, writesOf_cons_log,
      writesOf_cons_debug, writesOf_cons_write, writesOf_nil,
      writesOf_installLoop, writesOf_restart_services, writesOf_svcPairEvents]

/-- Claim C3: with a canonical-length identifier, config_hostapd returns the
SSID built from the fixed prefix plus the last 6 characters of the identifier
and the passphrase equal to its first 8 characters, and within the single
start_ap invocation the AP config file receives exactly these values (one
identifier, one hostapd.conf write). -/
theorem config_hostapd_credentials (env : Env) (h : env.uuid.length = 36) :
    (config_hostapd env).1.1 = "spiro-" ++ String.mk (env.uuid.data.drop 30)
    ∧ (config_hostapd env).1.2 = String.mk (env.uuid.data.take 8)
    ∧ writesOf (start_ap env).2 =
        [("/etc/dhcpcd.conf", dhcpcdConf true),
         ("/etc/dnsmasq.conf", dnsmasqConf),
         ("/etc/hostapd/hostapd.conf",
           hostapdConf (config_hostapd env).1.1 (config_hostapd env).1.2)] := by
  have hlen : env.uuid.data.length = 36 := h
  refine ⟨?_, ?_, writesOf_start_ap env⟩
  · show "spiro-" ++ pySlice env.uuid 30 36 = "spiro-" ++ String.mk (env.uuid.data.drop 30)
    unfold pySlice
    have : (env.uuid.data.drop 30).take (36 - 30) = env.uuid.data.drop 30 := by
      apply List.take_of_length_le
      simp [List.length_drop, hlen]
    rw [this]
  · show String.mk ((env.uuid.data.drop 0).take (8 - 0)) = String.mk (env.uuid.data.take 8)
    rw [List.drop_zero]

/-- Claim C4: install_reqs handles dnsmasq first and hostapd second; a
package whose dpkg query fails is installed via apt; a failed installation
aborts at once with the captured output of that apt command and without
touching the remaining package; a successful installation is followed by a
systemctl stop of that service; the result is success exactly when each
package was already present or installed cleanly. -/
theorem install_reqs_spec (env : Env) :
    (env.exec ["dpkg", "-l", "dnsmasq"] ≠ 0 → env.exec ["apt", "install", "-y", "dnsmasq"] ≠ 0 →
      install_reqs env =
        ((false, some (env.out ["apt", "install", "-y", "dnsmasq"])),
         [Event.runCmd ["dpkg", "-l", "dnsmasq"] (env.exec ["dpkg", "-l", "dnsmasq"]),
          Event.runCmd ["apt", "install", "-y", "dnsmasq"] (env.exec ["apt", "install", "-y", "dnsmasq"])]))
    ∧ ((env.exec ["dpkg", "-l", "dnsmasq"] = 0 ∨ env.exec ["apt", "install", "-y", "dnsmasq"] = 0) →
        env.exec ["dpkg", "-l", "hostapd"] ≠ 0 → env.exec ["apt", "install", "-y", "hostapd"] ≠ 0 →
        (install_reqs env).1 = (false, some (env.out ["apt", "install", "-y", "hostapd"])))
    ∧ ((install_reqs env).1.1 = true ↔
        ((env.exec ["dpkg", "-l", "dnsmasq"] = 0 ∨ env.exec ["apt", "install", "-y", "dnsmasq"] = 0) ∧
         (env.exec ["dpkg", "-l", "hostapd"] = 0 ∨ env.exec ["apt", "install", "-y", "hostapd"] = 0)))
    ∧ (env.exec ["dpkg", "-l", "dnsmasq"] ≠ 0 → env.exec ["apt", "install", "-y", "dnsmasq"] = 0 →
        ["systemctl", "stop", "dnsmasq"] ∈ cmdsOf (install_reqs env).2)
    ∧ ((env.exec ["dpkg", "-l", "dnsmasq"] = 0 ∨ env.exec ["apt", "install", "-y", "dnsmasq"] = 0) →
        env.exec ["dpkg", "-l", "hostapd"] ≠ 0 → env.exec ["apt", "install", "-y", "hostapd"] = 0 →
        ["systemctl", "stop", "hostapd"] ∈ cmdsOf (install_reqs env).2)
    ∧ (cmdsOf (install_reqs env).2).head? = some ["dpkg", "-l", "dnsmasq"] := by
  by_cases h1 : env.exec ["dpkg", "-l", "dnsmasq"] = 0 <;>
  by_cases h2 : env.exec ["apt", "install", "-y", "dnsmasq"] = 0 <;>
  by_cases h3 : env.exec ["dpkg", "-l", "hostapd"] = 0 <;>
  by_cases h4 : env.exec ["apt", "install", "-y", "hostapd"] = 0 <;>
  simp [install_reqs, installLoop, cmdsOf, cmdOf?, h1, h2, h3, h4]

/-- Claim C10: a package whose dpkg query exits with 0 triggers neither an
apt install nor a systemctl stop for that package, and whenever install_reqs
reports success the accompanying output component is none. -/
theorem install_reqs_frame (env : Env) :
    (env.exec ["dpkg", "-l", "dnsmasq"] = 0 →
      ["apt", "install", "-y", "dnsmasq"] ∉ cmdsOf (install_reqs env).2 ∧
      ["systemctl", "stop", "dnsmasq"] ∉ cmdsOf (install_reqs env).2)
    ∧ (env.exec ["dpkg", "-l", "hostapd"] = 0 →
      ["apt", "install", "-y", "hostapd"] ∉ cmdsOf (install_reqs env).2 ∧
      ["systemctl", "stop", "hostapd"] ∉ cmdsOf (install_reqs env).2)
    ∧ ((install_reqs env).1.1 = true → (install_reqs env).1.2 = none) := by
  by_cases h1 : env.exec ["dpkg", "-l", "dnsmasq"] = 0 <;>
  by_cases h2 : env.exec ["apt", "install", "-y", "dnsmasq"] = 0 <;>
  by_cases h3 : env.exec ["dpkg", "-l", "hostapd"] = 0 <;>
  by_cases h4 : env.exec ["apt", "install", "-y", "hostapd"] = 0 <;>
  simp [install_reqs, installLoop, cmdsOf, cmdOf?, h1, h2, h3, h4]

/-- Claim C9: for every canonical identifier, the passphrase has exactly 8
characters and the SSID exactly 12; the two slices u[0:8] and u[30:36] lie
inside the hex-digit fields of the canonical form, so both consist solely of
lowercase hexadecimal digits and never contain a hyphen; in particular the
passphrase meets the 8-character WPA2-PSK minimum. -/
theorem config_hostapd_hex (env : Env) (h : IsCanonicalUuid env.uuid) :
    (config_hostapd env).1.2.length = 8
    ∧ (config_hostapd env).1.1.length = 12
    ∧ (config_hostapd env).1.2.data.all isHexChar = true
    ∧ (pySlice env.uuid 30 36).data.all isHexChar = true
    ∧ hyphen ∉ (config_hostapd env).1.2.data
    ∧ hyphen ∉ (pySlice env.uuid 30 36).data
    ∧ 8 ≤ (config_hostapd env).1.2.length := by
  obtain ⟨a, b, c, d, e, ha, hb, hc, hd, he, hax, hbx, hcx, hdx, hexE, hu⟩ := h
  have huR : env.uuid.data =
      a ++ ([hyphen] ++ (b ++ ([hyphen] ++ (c ++ ([hyphen] ++ (d ++ ([hyphen] ++ e))))))) := by
    simpa [List.append_assoc] using hu
  have hpwd : (config_hostapd env).1.2 = String.mk a := by
    show String.mk ((env.uuid.data.drop 0).take (8 - 0)) = String.mk a
    rw [List.drop_zero, huR]
    exact congrArg String.mk (List.take_left' ha)
  have hsplit : env.uuid.data =
      (a ++ [hyphen] ++ b ++ [hyphen] ++ c ++ [hyphen] ++ d ++ [hyphen]) ++ e := by
    simpa [List.append_assoc] using hu
  have hP : (a ++ [hyphen] ++ b ++ [hyphen] ++ c ++ [hyphen] ++ d ++ [hyphen]).length = 24 := by
    simp [ha, hb, hc, hd]
  have hdrop : env.uuid.data.drop 30 = e.drop 6 := by
    rw [hsplit, show (30 : Nat) = 24 + 6 from rfl, ← hP]
    exact List.drop_append 6
  have hslice : pySlice env.uuid 30 36 = String.mk (e.drop 6) := by
    show String.mk ((env.uuid.data.drop 30).take (36 - 30)) = String.mk (e.drop 6)
    rw [hdrop]
    refine congrArg String.mk (List.take_of_length_le ?_)
    simp [List.length_drop, he]
  have hdropHex : (e.drop 6).all isHexChar = true := by
    rw [List.all_eq_true] at hexE ⊢
    exact fun x hx => hexE x (List.drop_subset 6 e hx)
  have hyphenNotHex : isHexChar hyphen = false := by decide
  refine ⟨?_, ?_, ?_, ?_, ?_, ?_, ?_⟩
  · rw [hpwd, String.length_mk, ha]
  · show ("spiro-" ++ pySlice env.uuid 30 36).length = 12
    rw [String.length_append, hslice, String.length_mk]
    simp [List.length_drop, he]
  · rw [hpwd]
    exact hax
  · rw [hslice]
    exact hdropHex
  · rw [hpwd]
    intro hmem
    have := List.all_eq_true.mp hax hyphen hmem
    rw [hyphenNotHex] at this
    exact Bool.false_ne_true this
  · rw [hslice]
    intro hmem
    have := List.all_eq_true.mp hdropHex hyphen hmem
    rw [hyphenNotHex] at this
    exact Bool.false_ne_true this
  · rw [hpwd, String.length_mk, ha]

/-- Claim C1: for every environment, hence for every outcome of install_reqs
(success or failure, never inspected) and every triple of restart exit codes,
start_ap returns exit code 1 when restart_services returns false and exit
code 0 when restart_services returns true. -/
theorem start_ap_exit_code (env : Env) :
    (start_ap env).1 = (if (restart_services env).1 = true then 0 else 1) := by
  by_cases h : (restart_services env).1 = true <;> simp [start_ap, h]

/-- Claim C2: restart_services restarts dhcpcd, dnsmasq, hostapd, in that
fixed order, attempting all three regardless of earlier exit codes, and its
result is true if and only if all three collected exit codes are zero. -/
theorem restart_services_spec (env : Env) :
    cmdsOf (restart_services env).2 =
      [["systemctl", "restart", "dhcpcd"],
       ["systemctl", "restart", "dnsmasq"],
       ["systemctl", "restart", "hostapd"]]
    ∧ ((restart_services env).1 = true ↔
        (env.exec ["systemctl", "restart", "dhcpcd"] = 0 ∧
         env.exec ["systemctl", "restart", "dnsmasq"] = 0 ∧
         env.exec ["systemctl", "restart", "hostapd"] = 0)) := by
  constructor
  · rfl
  · simp [restart_services, restartLoop, and_assoc]

/-- Claim C5: the dhcpcd.conf content written with the flag off is a strict
prefix of the content written with the flag on; the baseline block is
identical and only the wlan0 static-IP block is appended when enabled. -/
theorem config_dhcpcd_spec (env : Env) :
    config_dhcpcd env false = [Event.writeFile "/etc/dhcpcd.conf" (dhcpcdConf false)]
    ∧ config_dhcpcd env true = [Event.writeFile "/etc/dhcpcd.conf" (dhcpcdConf true)]
    ∧ dhcpcdConf true = dhcpcdConf false ++
        "interface wlan0\nstatic ip_address=192.168.138.1/24\nnohook wpa_supplicant\n"
    ∧ isStrictPre (dhcpcdConf false) (dhcpcdConf true) :=
  ⟨rfl, rfl, rfl, dhcpcdStatic, by decide, rfl⟩

/-- Claim C6: config_dnsmasq takes no parameters beyond the ambient
environment, never reads it, and writes byte-identical file content on
every call: a single full overwrite of /etc/dnsmasq.conf with fixed text. -/
theorem config_dnsmasq_spec (e1 e2 : Env) :
    config_dnsmasq e1 = config_dnsmasq e2
    ∧ config_dnsmasq e1 = [Event.writeFile "/etc/dnsmasq.conf" dnsmasqConf] :=
  ⟨rfl, rfl⟩

/-- Claim C7: config_hostapd performs exactly one full overwrite of the AP
config file, with a template that varies only in the ssid and wpa_passphrase
slots; the fixed text pins wlan0, nl80211, channel 7 in hw_mode g, wpa=2 with
WPA-PSK key management and TKIP plus CCMP pairwise ciphers, broadcast SSID
enabled and MAC ACL disabled. -/
theorem config_hostapd_template (env : Env) (files : String → Option String) :
    (config_hostapd env).2 =
      [Event.writeFile "/etc/hostapd/hostapd.conf"
        ("# auto-generated by spiro software\ninterface=wlan0\ndriver=nl80211\nssid=" ++
         (config_hostapd env).1.1 ++
         "\nhw_mode=g\nchannel=7\nwmm_enabled=0\nmacaddr_acl=0\nauth_algs=1\nignore_broadcast_ssid=0\nwpa=2\nwpa_passphrase=" ++
         (config_hostapd env).1.2 ++
         "\nwpa_key_mgmt=WPA-PSK\nwpa_pairwise=TKIP\nrsn_pairwise=CCMP\n")]
    ∧ applyEvents files (config_hostapd env).2 "/etc/hostapd/hostapd.conf" =
        some (hostapdConf (config_hostapd env).1.1 (config_hostapd env).1.2) := by
  constructor
  · rfl
  · simp [config_hostapd, applyEvents, applyEvent]

/-- Claim C8: stop_ap only stops then disables dnsmasq and hostapd, in that
order, with log lines around them; it issues no file write, leaves every
file of the file system unchanged, and returns no exit code (its result
type carries no value beyond the trace). -/
theorem stop_ap_spec (env : Env) (files : String → Option String) (p : String) :
    stop_ap env =
      [Event.logLine "Disabling services...",
       Event.runCmd ["systemctl", "stop", "dnsmasq"] (env.exec ["systemctl", "stop", "dnsmasq"]),
       Event.runCmd ["systemctl", "disable", "dnsmasq"] (env.exec ["systemctl", "disable", "dnsmasq"]),
       Event.runCmd ["systemctl", "stop", "hostapd"] (env.exec ["systemctl", "stop", "hostapd"]),
       Event.runCmd ["systemctl", "disable", "hostapd"] (env.exec ["systemctl", "disable", "hostapd"]),
       Event.logLine "Access point disabled."]
    ∧ writesOf (stop_ap env) = []
    ∧ applyEvents files (stop_ap env) p = files p := by
  refine ⟨rfl, rfl, ?_⟩
  simp [stop_ap, disable_services, svcPairEvents, applyEvents, applyEvent]

/-- Concrete environment where every command exits with code 0. -/
def envZ : Env :=
  ⟨fun _ => 0, fun _ => "", "00000000-0000-0000-0000-000000000000"⟩

/-- Concrete environment where every command exits with code 1. -/
def envF : Env :=
  ⟨fun _ => 1, fun _ => "E: Unable to locate package", "12345678-9abc-def0-1234-56789abcdef0"⟩

theorem config_hostapd_credentials_witness :
    envZ.uuid.length = 36 ∧
    (config_hostapd envZ).1.2 = String.mk (envZ.uuid.data.take 8) :=
  ⟨by decide, (config_hostapd_credentials envZ (by decide)).2.1⟩

theorem config_hostapd_hex_witness :
    IsCanonicalUuid envF.uuid ∧ (config_hostapd envF).1.2.length = 8 := by
  have hc : IsCanonicalUuid envF.uuid :=
    ⟨"12345678".data, "9abc".data, "def0".data, "1234".data, "56789abcdef0".data,
     by decide, by decide, by decide, by decide, by decide,
     by decide, by decide, by decide, by decide, by decide, by decide⟩
  exact ⟨hc, (config_hostapd_hex envF hc).1⟩

theorem install_reqs_spec_witness :
    install_reqs envF =
      ((false, some (envF.out ["apt", "install", "-y", "dnsmasq"])),
       [Event.runCmd ["dpkg", "-l", "dnsmasq"] (envF.exec ["dpkg", "-l", "dnsmasq"]),
        Event.runCmd ["apt", "install", "-y", "dnsmasq"] (envF.exec ["apt", "install", "-y", "dnsmasq"])]) :=
  (install_reqs_spec envF).1 (by decide) (by decide)

theorem install_reqs_frame_witness :
    ["apt", "install", "-y", "dnsmasq"] ∉ cmdsOf (install_reqs envZ).2 ∧
    ["systemctl", "stop", "dnsmasq"] ∉ cmdsOf (install_reqs envZ).2 :=
  (install_reqs_frame envZ).1 (by decide)

end Spiro
